import Mathlib

/-!
Shallow embedding of `src/scheduler/task_scheduler.py` (classes `Task` and
`TaskScheduler`).

Modelling conventions:
* Timestamps (`datetime.datetime`) are epoch seconds, modelled as `Int`;
  `isoformat`/`fromisoformat` on such values round-trip exactly, so the
  persisted form of an optional timestamp is the `Option Int` itself.
* A task's work-unit `function(*args, **kwargs)` is deterministic for the
  purposes of the claims; it is modelled by a value `function : Except String Int`
  holding either the returned result or the exception the call raises.
* The handle returned by the third-party `schedule` library is opaque; it is
  modelled as `Option Unit` (`some ()` = a job is registered).
* `Task.run` additionally reports a ghost Boolean: whether the work-unit was
  actually invoked during the call.  This is pure observability and does not
  influence any state.
* The body of the cron branch of `_schedule_task` after its five-field check
  calls into the `schedule` library and `datetime.replace` calendar
  arithmetic; those calls are third-party code whose results no claim depends
  on, so that tail is kept as an explicit parameter `cronBranch` of the
  scheduler operations (any outcome `Bool × Task` is allowed, matching the
  surrounding `try/except` which turns any raised exception into `False`).
* File I/O (`_save_tasks` writing, `_load_tasks` reading `tasks.json`) is
  modelled by passing the list of persisted records explicitly.
-/

namespace Sched

deriving instance DecidableEq for Except

/-- Embedding of the `Task` class (`task_scheduler.py`, lines 14-55).
`args`/`kwargs` are folded into `function` (see the header comment);
`job` is the opaque handle stored in `self.job`. -/
structure Task where
  task_id : String
  name : String
  function : Except String Int
  schedule_type : String
  interval : Int
  cron : Option String
  start_time : Option Int
  end_time : Option Int
  max_runs : Option Nat
  enabled : Bool
  run_count : Nat
  last_run : Option Int
  next_run : Option Int
  job : Option Unit
  deriving Repr, DecidableEq

/-- The condition of line 126: `self.max_runs is not None and self.run_count >= self.max_runs`. -/
def Task.maxRunsReached (t : Task) : Bool :=
  match t.max_runs with
  | some m => t.run_count ≥ m
  | none => false

/-- The condition of line 132: `self.end_time is not None and now > self.end_time`. -/
def Task.endTimePassed (t : Task) (now : Int) : Bool :=
  match t.end_time with
  | some e => now > e
  | none => false

/-- Embedding of `Task.run` (lines 114-160).  `now` is `datetime.datetime.now()`.
Returns the Python return value, the task state after the call, and the ghost
flag recording whether `self.function` was invoked.  The `try/except` of
lines 139-160 catches a raising work-unit and returns `None` (the state
mutations of lines 142-153 all sit after the call, inside the `try`). -/
def Task.run (t : Task) (now : Int) : Option Int × Task × Bool :=
  if !t.enabled then
    (none, t, false)
  else if t.maxRunsReached then
    (none, { t with enabled := false }, false)
  else if t.endTimePassed now then
    (none, { t with enabled := false }, false)
  else
    match t.function with
    | .error _ => (none, t, true)
    | .ok v =>
      let t1 := { t with run_count := t.run_count + 1, last_run := some now }
      if t.schedule_type = "interval" then
        (some v, { t1 with next_run := some (now + t.interval) }, true)
      else if t.schedule_type = "cron" then
        (some v, t1, true)
      else if t.schedule_type = "once" then
        (some v, { t1 with next_run := none, enabled := false }, true)
      else
        (some v, t1, true)

/-- The persisted record produced by `Task.to_dict` (lines 57-77): every field
of the task except `function`/`args`/`kwargs` and the live `job` handle. -/
structure TaskDict where
  task_id : String
  name : String
  schedule_type : String
  interval : Int
  cron : Option String
  start_time : Option Int
  end_time : Option Int
  max_runs : Option Nat
  enabled : Bool
  run_count : Nat
  last_run : Option Int
  next_run : Option Int
  deriving Repr, DecidableEq

/-- Embedding of `Task.to_dict` (lines 57-77). -/
def Task.to_dict (t : Task) : TaskDict :=
  { task_id := t.task_id
    name := t.name
    schedule_type := t.schedule_type
    interval := t.interval
    cron := t.cron
    start_time := t.start_time
    end_time := t.end_time
    max_runs := t.max_runs
    enabled := t.enabled
    run_count := t.run_count
    last_run := t.last_run
    next_run := t.next_run }

/-- Embedding of `Task.from_dict` (lines 79-112): rebuilds a task from a
record and a freshly supplied work-unit, then overwrites `run_count`,
`last_run` and `next_run` from the record.  A fresh task has `job = None`. -/
def Task.from_dict (d : TaskDict) (function : Except String Int) : Task :=
  { task_id := d.task_id
    name := d.name
    function := function
    schedule_type := d.schedule_type
    interval := d.interval
    cron := d.cron
    start_time := d.start_time
    end_time := d.end_time
    max_runs := d.max_runs
    enabled := d.enabled
    run_count := d.run_count
    last_run := d.last_run
    next_run := d.next_run
    job := none }

/-- Embedding of the `TaskScheduler` registry `self.tasks`: a Python dict in
insertion order, as an association list keyed by `task_id`. -/
structure TaskScheduler where
  tasks : List (String × Task)
  deriving Repr, DecidableEq

/-- Replacing the value stored under an existing key (mutation of the task
object held in `self.tasks[task_id]`). -/
def updateTask (tasks : List (String × Task)) (id : String) (t : Task) :
    List (String × Task) :=
  tasks.map (fun p => if p.1 = id then (id, t) else p)

/-- Embedding of `TaskScheduler._schedule_task` (lines 389-477).
`cronBranch` stands for the tail of the cron branch after the five-field
check (lines 422-457, third-party `schedule`/`datetime.replace` calls); see
the header comment.  Returns the Python Boolean and the task state after the
call.  Any internal exception is caught (lines 475-477) and yields `False`. -/
def scheduleTask (cronBranch : Task → Int → Bool × Task)
    (t0 : Task) (now : Int) : Bool × Task :=
  let t := { t0 with job := none }
  if !t.enabled then
    (true, t)
  else if t.schedule_type = "interval" then
    (true, { t with job := some (), next_run := some (now + t.interval) })
  else if t.schedule_type = "cron" then
    match t.cron with
    | none =>
      -- `task.cron.split()` on `None` raises; caught at line 475, `False`.
      (false, t)
    | some c =>
      if (c.splitOn " ").length ≠ 5 then (false, t)
      else cronBranch t now
  else if t.schedule_type = "once" then
    match t.start_time with
    | some st =>
      if st > now then
        (true, { t with job := some (), next_run := some st })
      else
        let r := t.run now
        (true, { r.2.1 with next_run := none, enabled := false })
    | none =>
      let r := t.run now
      (true, { r.2.1 with next_run := none, enabled := false })
  else
    (true, t)

/-- Embedding of `TaskScheduler.add_task` (lines 229-258).  The result of
`_schedule_task` is discarded by the source (line 248); `_save_tasks`
swallows its own errors, so the only `False` path is the duplicate id. -/
def addTask (cronBranch : Task → Int → Bool × Task)
    (s : TaskScheduler) (t : Task) (now : Int) : Bool × TaskScheduler :=
  if (s.tasks.lookup t.task_id).isSome then
    (false, s)
  else
    let st := (scheduleTask cronBranch t now).2
    (true, ⟨s.tasks ++ [(t.task_id, st)]⟩)

/-- Embedding of `TaskScheduler.enable_task` (lines 317-350). -/
def enableTask (cronBranch : Task → Int → Bool × Task)
    (s : TaskScheduler) (id : String) (now : Int) : Bool × TaskScheduler :=
  match s.tasks.lookup id with
  | none => (false, s)
  | some t =>
    let t2 := (scheduleTask cronBranch { t with enabled := true } now).2
    (true, ⟨updateTask s.tasks id t2⟩)

/-- Embedding of `TaskScheduler.disable_task` (lines 352-387): sets
`enabled = False`, cancels the job if one is registered (net effect
`job = None`), saves, returns `True`.  No other field is touched. -/
def disableTask (s : TaskScheduler) (id : String) : Bool × TaskScheduler :=
  match s.tasks.lookup id with
  | none => (false, s)
  | some t =>
    (true, ⟨updateTask s.tasks id { t with enabled := false, job := none }⟩)

/-- Embedding of `TaskScheduler.run_task` (lines 535-563): looks the task up
and calls `task.run()` directly.  Returns the Python result, the scheduler
state afterwards, and `Task.run`'s ghost invocation flag. -/
def runTask (s : TaskScheduler) (id : String) (now : Int) :
    Option Int × TaskScheduler × Bool :=
  match s.tasks.lookup id with
  | none => (none, s, false)
  | some t =>
    let r := t.run now
    (r.1, ⟨updateTask s.tasks id r.2.1⟩, r.2.2)

/-- Embedding of `TaskScheduler.get_tasks` (lines 308-315). -/
def getTasks (s : TaskScheduler) : List Task :=
  s.tasks.map Prod.snd

/-- One iteration of the `_load_tasks` loop (lines 197-207): a record whose
`task_id` is not already registered is skipped (lines 199-200); otherwise the
registered task's `enabled`/`run_count`/`last_run`/`next_run` are overwritten
from the record. -/
def applyRecord (tasks : List (String × Task)) (d : TaskDict) :
    List (String × Task) :=
  match tasks.lookup d.task_id with
  | none => tasks
  | some t =>
    updateTask tasks d.task_id
      { t with enabled := d.enabled, run_count := d.run_count,
               last_run := d.last_run, next_run := d.next_run }

/-- Embedding of `TaskScheduler._load_tasks` (lines 186-211) applied to the
records read from `tasks.json`. -/
def loadTasks (s : TaskScheduler) (records : List TaskDict) : TaskScheduler :=
  ⟨records.foldl applyRecord s.tasks⟩

/-- Embedding of `TaskScheduler.__init__` (lines 167-184): the registry is
created empty (`self.tasks = {}`, line 177) and `_load_tasks` is then run on
whatever records the store holds (line 182). -/
def initScheduler (records : List TaskDict) : TaskScheduler :=
  loadTasks ⟨[]⟩ records

/-! Concrete fixtures used by counterexamples and witnesses. -/

/-- A plain enabled interval task, as the demos build them. -/
def tInterval : Task :=
  { task_id := "t1", name := "demo", function := .ok 7,
    schedule_type := "interval", interval := 60, cron := none,
    start_time := none, end_time := none, max_runs := none,
    enabled := true, run_count := 0, last_run := none, next_run := none,
    job := none }

/-- An interval task whose work-unit raises. -/
def tErr : Task := { tInterval with task_id := "e1", function := .error "boom" }

/-- A scheduled interval task: timer registered, `next_run` computed. -/
def tRunning : Task := { tInterval with next_run := some 60, job := some () }

/-- A cron-branch outcome in which the third-party call raises (the
`except` of `_schedule_task` turns that into `False`, task unchanged). -/
def cronAbort : Task → Int → Bool × Task := fun t _ => (false, t)

/-! Helper lemmas about `Task.run`. -/

/-- On a disabled task, `run` returns `None` without touching anything
(lines 121-123). -/
theorem Task.run_disabled (t : Task) (now : Int) (he : t.enabled = false) :
    t.run now = (none, t, false) := by
  unfold Task.run
  simp [he]

/-- The work-unit is invoked exactly when the task is enabled, below its
`max_runs` cap and before its `end_time`. -/
theorem Task.run_invoked (t : Task) (now : Int) :
    (t.run now).2.2 = (t.enabled && !t.maxRunsReached && !(t.endTimePassed now)) := by
  unfold Task.run
  cases he : t.enabled
  · simp [he]
  · cases hm : t.maxRunsReached
    · cases hd : t.endTimePassed now
      · cases hf : t.function
        · simp [he, hm, hd, hf]
        · simp only [he, hm, hd, hf, Bool.not_false, Bool.not_true, ite_false, ite_true,
            Bool.and_self, Bool.and_true]
          repeat' split
          all_goals simp_all
      · simp [he, hm, hd]
    · simp [he, hm]

/-- When the work-unit raises, `run` returns `None` (lines 158-160). -/
theorem Task.run_error_result (t : Task) (now : Int) (e : String)
    (hf : t.function = .error e) :
    (t.run now).1 = none := by
  unfold Task.run
  cases he : t.enabled <;> cases hm : t.maxRunsReached <;>
    cases hd : t.endTimePassed now <;> simp [he, hm, hd, hf]

/-! Claim C1. -/

/-- Claim C1, counterexample: `run_task` on a disabled but otherwise
unconstrained task does NOT execute the work-unit (ghost flag `false`) and
returns `None` — `Task.run` checks `enabled` first (line 121), so manual
execution does not ignore the `enabled` flag. -/
theorem run_task_disabled_counterexample :
    (runTask ⟨[("t1", { tInterval with enabled := false })]⟩ "t1" 0).2.2 = false ∧
    (runTask ⟨[("t1", { tInterval with enabled := false })]⟩ "t1" 0).1 = none := by
  decide

/-- Claim C1 (amended): for every registered task, `run_task` invokes the
work-unit iff the task is enabled AND below `max_runs` AND before `end_time`;
in particular a disabled task yields `None` without executing — manual
execution checks the `enabled` flag exactly like a loop-driven firing. -/
theorem run_task_invocation_condition (s : TaskScheduler) (id : String)
    (t : Task) (now : Int) (h : s.tasks.lookup id = some t) :
    (runTask s id now).2.2 = (t.enabled && !t.maxRunsReached && !(t.endTimePassed now)) ∧
    (t.enabled = false → (runTask s id now).1 = none) := by
  simp only [runTask, h]
  refine ⟨Task.run_invoked t now, fun he => ?_⟩
  rw [Task.run_disabled t now he]

/-- Claim C1, witness. -/
theorem run_task_invocation_condition_witness :
    (⟨[("t1", tInterval)]⟩ : TaskScheduler).tasks.lookup "t1" = some tInterval ∧
    ((runTask ⟨[("t1", tInterval)]⟩ "t1" 5).2.2 =
        (tInterval.enabled && !tInterval.maxRunsReached && !(tInterval.endTimePassed 5)) ∧
      (tInterval.enabled = false → (runTask ⟨[("t1", tInterval)]⟩ "t1" 5).1 = none)) :=
  ⟨by decide, run_task_invocation_condition ⟨[("t1", tInterval)]⟩ "t1" tInterval 5 (by decide)⟩

/-! Claim C2. -/

/-- Claim C2, counterexample: a work-unit that raises, fired via `run_task`:
the work-unit is invoked (flag `true`) yet `run_task` returns `None` normally
and the task state is unchanged — the exception is caught inside `Task.run`
(lines 158-160) and never propagates to `run_task`'s caller. -/
theorem run_task_error_counterexample :
    runTask ⟨[("e1", tErr)]⟩ "e1" 0 = (none, ⟨[("e1", tErr)]⟩, true) := by
  decide

/-- Claim C2 (amended): a raising work-unit is caught and logged inside
`Task.run` regardless of the driver: a loop-driven firing returns `None`, and
`run_task` also returns `None` to its caller — the exception propagates in
neither case. -/
theorem work_unit_error_swallowed (t : Task) (e : String) (now : Int)
    (hf : t.function = .error e) :
    (t.run now).1 = none ∧
    ∀ s : TaskScheduler, ∀ id : String, s.tasks.lookup id = some t →
      (runTask s id now).1 = none := by
  refine ⟨Task.run_error_result t now e hf, fun s id h => ?_⟩
  simp only [runTask, h]
  exact Task.run_error_result t now e hf

/-- Claim C2, witness. -/
theorem work_unit_error_swallowed_witness :
    tErr.function = .error "boom" ∧
    ((tErr.run 0).1 = none ∧
      ∀ s : TaskScheduler, ∀ id : String, s.tasks.lookup id = some tErr →
        (runTask s id 0).1 = none) :=
  ⟨by decide, work_unit_error_swallowed tErr "boom" 0 (by decide)⟩

/-! Claim C3. -/

/-- Claim C3, counterexample: disabling a scheduled interval task returns
`true`, sets `enabled := false` and cancels the timer, but `next_run` keeps
its stale value `some 60` instead of being cleared — so afterwards the task
is disabled, is not a completed one-shot, and still has `next_run` present,
violating the claimed absence invariant. -/
theorem disable_task_counterexample :
    (disableTask ⟨[("t1", tRunning)]⟩ "t1").1 = true ∧
    (disableTask ⟨[("t1", tRunning)]⟩ "t1").2.tasks =
      [("t1", { tRunning with enabled := false, job := none })] ∧
    ({ tRunning with enabled := false, job := none } : Task).next_run = some 60 := by
  decide

/-- Claim C3 (amended): for every existing task, `disable_task` returns
`true`, sets `enabled := false` and cancels the pending timer, and leaves
every other field — `run_count`, `last_run` AND `next_run` — unchanged;
`next_run` is left stale rather than cleared, so the absence invariant need
not hold after a disable. -/
theorem disable_task_frame (s : TaskScheduler) (id : String) (t : Task)
    (h : s.tasks.lookup id = some t) :
    disableTask s id =
      (true, ⟨updateTask s.tasks id { t with enabled := false, job := none }⟩) := by
  unfold disableTask
  rw [h]

/-- Claim C3, witness. -/
theorem disable_task_frame_witness :
    (⟨[("t1", tRunning)]⟩ : TaskScheduler).tasks.lookup "t1" = some tRunning ∧
    disableTask ⟨[("t1", tRunning)]⟩ "t1" =
      (true, ⟨updateTask [("t1", tRunning)] "t1"
        { tRunning with enabled := false, job := none }⟩) :=
  ⟨by decide, disable_task_frame ⟨[("t1", tRunning)]⟩ "t1" tRunning (by decide)⟩

/-! Claim C4. -/

/-- Claim C4: `add_task` with a duplicate `task_id` returns `False` and
leaves the scheduler unchanged — the existing task keeps all its fields and
`get_tasks()` keeps its length (lines 241-243). -/
theorem add_task_duplicate (cb : Task → Int → Bool × Task) (s : TaskScheduler)
    (t : Task) (now : Int) (h : (s.tasks.lookup t.task_id).isSome = true) :
    addTask cb s t now = (false, s) ∧
    (getTasks (addTask cb s t now).2).length = (getTasks s).length := by
  have h1 : addTask cb s t now = (false, s) := by simp [addTask, h]
  exact ⟨h1, by rw [h1]⟩

/-- Claim C4, witness: a second task with id "t1" (different fields) is
rejected and the registry of one task is untouched. -/
theorem add_task_duplicate_witness :
    ((⟨[("t1", tRunning)]⟩ : TaskScheduler).tasks.lookup tInterval.task_id).isSome = true ∧
    (addTask cronAbort ⟨[("t1", tRunning)]⟩ tInterval 0 = (false, ⟨[("t1", tRunning)]⟩) ∧
      (getTasks (addTask cronAbort ⟨[("t1", tRunning)]⟩ tInterval 0).2).length =
        (getTasks ⟨[("t1", tRunning)]⟩).length) :=
  ⟨by decide, add_task_duplicate cronAbort ⟨[("t1", tRunning)]⟩ tInterval 0 (by decide)⟩

/-! Claim C5. -/

/-- A cron task constraining both day-of-month (15) and day-of-week (3). -/
def tCron : Task :=
  { tInterval with
      task_id := "c1"
      schedule_type := "cron"
      cron := some "0 12 15 * 3" }

/-- Claim C5, counterexample: registering the cron task "0 12 15 * 3" (both
day-of-month and day-of-week constrained) does NOT fail: `add_task` returns
`True` and the task lands in the registry even when the scheduling attempt
fails internally (`cronAbort`), because `add_task` discards
`_schedule_task`'s result (line 248) — no validation error reaches the
caller. -/
theorem add_task_cron_counterexample :
    (addTask cronAbort ⟨[]⟩ tCron 0).1 = true ∧
    ((addTask cronAbort ⟨[]⟩ tCron 0).2.tasks.lookup "c1").isSome = true := by
  decide

/-- Claim C5 (amended): registration never fails with a validation error:
for every outcome of the cron scheduling attempt (including an internal
failure, result `False`), `add_task` on a fresh id returns `True` and stores
the task, silently discarding `_schedule_task`'s result. -/
theorem add_task_ignores_validation (cb : Task → Int → Bool × Task)
    (s : TaskScheduler) (t : Task) (now : Int)
    (h : s.tasks.lookup t.task_id = none) :
    (addTask cb s t now).1 = true ∧
    (addTask cb s t now).2.tasks =
      s.tasks ++ [(t.task_id, (scheduleTask cb t now).2)] := by
  simp [addTask, h]

/-- Claim C5, witness. -/
theorem add_task_ignores_validation_witness :
    (⟨[]⟩ : TaskScheduler).tasks.lookup tCron.task_id = none ∧
    ((addTask cronAbort ⟨[]⟩ tCron 0).1 = true ∧
      (addTask cronAbort ⟨[]⟩ tCron 0).2.tasks =
        [] ++ [(tCron.task_id, (scheduleTask cronAbort tCron 0).2)]) :=
  ⟨by decide, add_task_ignores_validation cronAbort ⟨[]⟩ tCron 0 (by decide)⟩

/-! Claim C6. -/

/-- An interval task capped at a single run. -/
def tMax : Task := { tInterval with max_runs := some 1 }

/-- When `run_count` has reached `max_runs` (or the task is already
disabled), a firing returns `None`, leaves `enabled = false` afterwards,
does not invoke the work-unit, and does not change `run_count`. -/
theorem Task.run_maxed (t : Task) (now : Int) (hm : t.maxRunsReached = true) :
    (t.run now).1 = none ∧ (t.run now).2.1.enabled = false ∧
    (t.run now).2.2 = false ∧ (t.run now).2.1.run_count = t.run_count := by
  unfold Task.run
  cases he : t.enabled
  · simp [he]
  · simp [he, hm]

/-- A firing either leaves `run_count` unchanged, or increments it by one —
and the increment happens only below the `max_runs` cap. -/
theorem Task.run_count_step (t : Task) (now : Int) :
    (t.run now).2.1.run_count = t.run_count ∨
    ((t.run now).2.1.run_count = t.run_count + 1 ∧ t.maxRunsReached = false) := by
  unfold Task.run
  cases he : t.enabled
  · simp [he]
  · cases hm : t.maxRunsReached
    · cases hd : t.endTimePassed now
      · cases hf : t.function
        · simp [he, hm, hd, hf]
        · right
          simp only [he, hm, hd, hf, Bool.not_false, Bool.not_true, ite_false, ite_true]
          repeat' split
          all_goals simp_all
      · simp [he, hm, hd]
    · simp [he, hm]

/-- Claim C6, counterexample: a task with `max_runs = 1` fires once at time 0:
`run_count` becomes `1 = max_runs`, yet `enabled` is still `true` immediately
after that run — the flag is only cleared at the NEXT firing attempt
(lines 126-129), not at the moment the cap is reached. -/
theorem max_runs_counterexample :
    (tMax.run 0).2.1.run_count = 1 ∧ tMax.max_runs = some 1 ∧
    (tMax.run 0).2.1.enabled = true := by
  decide

/-- Claim C6 (amended): with `max_runs = m`, every firing preserves
`run_count ≤ m`, and once `run_count ≥ m` a firing never invokes the
work-unit: it returns `None` and only then forces `enabled = false` — the
flag is cleared lazily at that next firing attempt rather than at the moment
the cap is reached. -/
theorem max_runs_cap (t : Task) (now : Int) (m : Nat) (h : t.max_runs = some m) :
    (t.run_count ≤ m → (t.run now).2.1.run_count ≤ m) ∧
    (m ≤ t.run_count →
      (t.run now).1 = none ∧ (t.run now).2.1.enabled = false ∧
      (t.run now).2.2 = false) := by
  have hreach : t.maxRunsReached = decide (m ≤ t.run_count) := by
    unfold Task.maxRunsReached
    rw [h]
  constructor
  · intro hle
    rcases Task.run_count_step t now with hc | ⟨hc, hm⟩
    · rw [hc]; exact hle
    · rw [hc]
      have hlt : ¬ m ≤ t.run_count := by
        rw [hreach] at hm
        exact of_decide_eq_false hm
      omega
  · intro hge
    have hm : t.maxRunsReached = true := by
      rw [hreach]
      exact decide_eq_true hge
    obtain ⟨h1, h2, h3, _⟩ := Task.run_maxed t now hm
    exact ⟨h1, h2, h3⟩

/-- Claim C6, witness. -/
theorem max_runs_cap_witness :
    tMax.max_runs = some 1 ∧
    ((tMax.run_count ≤ 1 → (tMax.run 0).2.1.run_count ≤ 1) ∧
      (1 ≤ tMax.run_count →
        (tMax.run 0).1 = none ∧ (tMax.run 0).2.1.enabled = false ∧
        (tMax.run 0).2.2 = false)) :=
  ⟨by decide, max_runs_cap tMax 0 1 (by decide)⟩

/-! Claim C7. -/

/-- An interval task with a zero interval (the constructor accepts it). -/
def tZero : Task := { tInterval with interval := 0 }

/-- Claim C7, counterexample: an interval task with `interval = 0` fires at
time 10 and computes `next_run = some 10 = last_run` — the next due time is
NOT strictly greater than the anchor. -/
theorem interval_zero_counterexample :
    (tZero.run 10).2.1.last_run = some 10 ∧
    (tZero.run 10).2.1.next_run = some 10 := by
  decide

/-- Claim C7 (amended): for an interval task, a successful firing at `now`
sets `last_run = now` and `next_run = now + interval` (the anchor is the fire
time, drift-free), and registration sets `next_run = now + interval` without
invoking the work-unit (`run_count` unchanged); in both cases `next_run`
strictly exceeds the anchor exactly when the interval is positive. -/
theorem interval_next_run (cb : Task → Int → Bool × Task) (t : Task)
    (now v : Int) (ht : t.schedule_type = "interval") (he : t.enabled = true)
    (hm : t.maxRunsReached = false) (hd : t.endTimePassed now = false)
    (hf : t.function = .ok v) :
    (t.run now).2.1.last_run = some now ∧
    (t.run now).2.1.next_run = some (now + t.interval) ∧
    (scheduleTask cb t now).2.next_run = some (now + t.interval) ∧
    (scheduleTask cb t now).2.run_count = t.run_count ∧
    (0 < t.interval → now < now + t.interval) := by
  have hrun : t.run now =
      (some v, { t with run_count := t.run_count + 1, last_run := some now,
                        next_run := some (now + t.interval) }, true) := by
    unfold Task.run
    simp [he, hm, hd, hf, ht]
  have hsch : (scheduleTask cb t now).2 =
      { t with job := some (), next_run := some (now + t.interval) } := by
    unfold scheduleTask
    simp [he, ht]
  rw [hrun, hsch]
  exact ⟨rfl, rfl, rfl, rfl, fun hpos => by omega⟩

/-- Claim C7, witness. -/
theorem interval_next_run_witness :
    (tInterval.schedule_type = "interval" ∧ tInterval.enabled = true ∧
      tInterval.maxRunsReached = false ∧ tInterval.endTimePassed 0 = false ∧
      tInterval.function = .ok 7) ∧
    ((tInterval.run 0).2.1.last_run = some 0 ∧
      (tInterval.run 0).2.1.next_run = some (0 + tInterval.interval) ∧
      (scheduleTask cronAbort tInterval 0).2.next_run = some (0 + tInterval.interval) ∧
      (scheduleTask cronAbort tInterval 0).2.run_count = tInterval.run_count ∧
      (0 < tInterval.interval → (0 : Int) < 0 + tInterval.interval)) :=
  ⟨⟨by decide, by decide, by decide, by decide, by decide⟩,
    interval_next_run cronAbort tInterval 0 7 (by decide) (by decide) (by decide)
      (by decide) (by decide)⟩

/-! Claim C8. -/

/-- Claim C8: the persistence round-trip is the identity on run-state: for
every task, `from_dict (to_dict t)` with any freshly attached work-unit
reproduces `run_count`, `last_run`, `next_run` and `enabled`; and `to_dict`
is independent of the work-unit — the persisted record never contains the
callable (the `TaskDict` type has no such field). -/
theorem to_dict_round_trip (t : Task) (f g : Except String Int) :
    (Task.from_dict t.to_dict f).run_count = t.run_count ∧
    (Task.from_dict t.to_dict f).last_run = t.last_run ∧
    (Task.from_dict t.to_dict f).next_run = t.next_run ∧
    (Task.from_dict t.to_dict f).enabled = t.enabled ∧
    ({ t with function := g } : Task).to_dict = t.to_dict :=
  ⟨rfl, rfl, rfl, rfl, rfl⟩

/-! Claim C9. -/

/-- A persisted record with accumulated run-state for id "t1". -/
def recPersisted : TaskDict :=
  { task_id := "t1"
    name := "demo"
    schedule_type := "interval"
    interval := 60
    cron := none
    start_time := none
    end_time := none
    max_runs := none
    enabled := true
    run_count := 5
    last_run := some 100
    next_run := some 160 }

/-- Loading a record into an empty registry changes nothing (the skip of
lines 199-200). -/
theorem applyRecord_nil (d : TaskDict) : applyRecord [] d = [] := rfl

/-- `__init__` creates the registry empty before `_load_tasks` runs, so the
startup load leaves the scheduler empty whatever the store holds. -/
theorem init_empty (records : List TaskDict) : initScheduler records = ⟨[]⟩ := by
  unfold initScheduler loadTasks
  induction records with
  | nil => rfl
  | cons d ds ih =>
    rw [List.foldl_cons, applyRecord_nil]
    exact ih

/-- Claim C9, counterexample: a store holding one record with accumulated
run-state (`run_count = 5`) is loaded at startup into the registry that
`__init__` just created empty: the record's id is not registered, so the
record is skipped (lines 199-200) and none of its run-state is restored —
the persisted task is dropped, not kept as inert state. -/
theorem startup_restore_counterexample :
    initScheduler [recPersisted] = ⟨[]⟩ ∧ recPersisted.run_count = 5 := by
  decide

/-- Claim C9 (amended): `_load_tasks` copies a record's stored run-state
(`enabled`/`run_count`/`last_run`/`next_run`) only into a task already
registered under the same id; records with no registered task are silently
skipped, and since `__init__` creates the registry empty before loading,
the startup load restores nothing. -/
theorem load_restores_only_registered (records : List TaskDict)
    (s : TaskScheduler) (d : TaskDict) (t : Task)
    (h : s.tasks.lookup d.task_id = some t) :
    initScheduler records = ⟨[]⟩ ∧
    (loadTasks s [d]).tasks = updateTask s.tasks d.task_id
      { t with enabled := d.enabled, run_count := d.run_count,
               last_run := d.last_run, next_run := d.next_run } := by
  refine ⟨init_empty records, ?_⟩
  unfold loadTasks
  simp [List.foldl, applyRecord, h]

/-- Claim C9, witness. -/
theorem load_restores_only_registered_witness :
    (⟨[("t1", tInterval)]⟩ : TaskScheduler).tasks.lookup recPersisted.task_id =
      some tInterval ∧
    (initScheduler [recPersisted] = ⟨[]⟩ ∧
      (loadTasks ⟨[("t1", tInterval)]⟩ [recPersisted]).tasks =
        updateTask [("t1", tInterval)] recPersisted.task_id
          { tInterval with
              enabled := recPersisted.enabled
              run_count := recPersisted.run_count
              last_run := recPersisted.last_run
              next_run := recPersisted.next_run }) :=
  ⟨by decide, load_restores_only_registered [recPersisted] ⟨[("t1", tInterval)]⟩
    recPersisted tInterval (by decide)⟩

/-! Claim C10. -/

/-- Claim C10: for an enabled task within its `max_runs`/`end_time` limits
whose work-unit raises, `Task.run` returns `None` and the task state is
exactly the pre-call state — `run_count`, `last_run`, `next_run`, `enabled`
are all unchanged, because every mutation sits after the call inside the
`try` (lines 139-160). -/
theorem run_error_preserves_state (t : Task) (now : Int) (e : String)
    (he : t.enabled = true) (hm : t.maxRunsReached = false)
    (hd : t.endTimePassed now = false) (hf : t.function = .error e) :
    t.run now = (none, t, true) := by
  unfold Task.run
  simp [he, hm, hd, hf]

/-- Claim C10, witness. -/
theorem run_error_preserves_state_witness :
    (tErr.enabled = true ∧ tErr.maxRunsReached = false ∧
      tErr.endTimePassed 0 = false ∧ tErr.function = .error "boom") ∧
    tErr.run 0 = (none, tErr, true) :=
  ⟨⟨by decide, by decide, by decide, by decide⟩,
    run_error_preserves_state tErr 0 "boom" (by decide) (by decide) (by decide)
      (by decide)⟩

end Sched
